import Mathlib

/-!
# ICN6211 MIPI-DSI to RGB bridge panel driver

A shallow embedding of `drivers/gpu/drm/panel/panel-icn6211.c`.

* C integers are `Int`; the result of `int` arithmetic is wrapped to 32 bits
  (`wrapInt`) and an element of a `const u8 d[]` initialiser is reduced to
  8 bits (`toU8`).
* Every call into an external collaborator (regulator, GPIO, DSI transport,
  backlight, DRM core) is appended to `World.trace`; the value the call
  returns is chosen by an `Oracle`, which sees the whole history of calls.
* Kernel log output (`printk`, `dev_err`) goes to `World.log`.
* A NULL dereference is `none`.
-/

namespace Icn6211

/-! ## Data model -/

/-- The fields of `struct drm_display_mode` this driver reads or writes.
The declaration (`include/drm/drm_modes.h`) is not among the sources; the
timing fields are `int` or `u16` depending on the tree, and `Int` covers both. -/
structure drm_display_mode where
  name : String
  clock : Int
  hdisplay : Int
  hsync_start : Int
  hsync_end : Int
  htotal : Int
  vdisplay : Int
  vsync_start : Int
  vsync_end : Int
  vtotal : Int
  type : Int
  deriving DecidableEq, Repr

/-- Constants and pure helpers of kernel headers that are not among the
sources. They are parameters of the embedding. -/
structure Kernel where
  MIPI_DCS_SET_TEAR_OFF : Int
  MIPI_DCS_SET_ADDRESS_MODE : Int
  MIPI_DCS_SET_COLUMN_ADDRESS : Int
  MIPI_DCS_GET_POWER_SAVE : Int
  MIPI_DCS_ENTER_SLEEP_MODE : Int
  MIPI_DCS_EXIT_SLEEP_MODE : Int
  DRM_MODE_TYPE_DRIVER : Int
  DRM_MODE_TYPE_PREFERRED : Int
  MIPI_DSI_MODE_VIDEO_SYNC_PULSE : Int
  MIPI_DSI_FMT_RGB888 : Int
  ENOMEM : Int
  EPROBE_DEFER : Int
  MAX_ERRNO : Int
  /-- The string `drm_mode_set_name` stores in `mode->name`. -/
  mode_name : drm_display_mode → String
  /-- The value of `drm_mode_vrefresh`. -/
  drm_mode_vrefresh : drm_display_mode → Int

/-- The values of the parameters in the mainline headers
(`video/mipi_display.h`, `drm/drm_modes.h`, `drm/drm_mipi_dsi.h`,
`linux/errno.h`, `linux/err.h`). -/
def linux : Kernel where
  MIPI_DCS_SET_TEAR_OFF := 0x34
  MIPI_DCS_SET_ADDRESS_MODE := 0x36
  MIPI_DCS_SET_COLUMN_ADDRESS := 0x2A
  MIPI_DCS_GET_POWER_SAVE := 0x56
  MIPI_DCS_ENTER_SLEEP_MODE := 0x10
  MIPI_DCS_EXIT_SLEEP_MODE := 0x11
  DRM_MODE_TYPE_DRIVER := 64
  DRM_MODE_TYPE_PREFERRED := 8
  MIPI_DSI_MODE_VIDEO_SYNC_PULSE := 4
  MIPI_DSI_FMT_RGB888 := 0
  ENOMEM := 12
  EPROBE_DEFER := 517
  MAX_ERRNO := 4095
  mode_name := fun m => toString m.hdisplay ++ "x" ++ toString m.vdisplay
  drm_mode_vrefresh := fun m => (m.clock * 1000 + m.htotal * m.vtotal / 2) / (m.htotal * m.vtotal)

/-- The two GPIO lines of the panel. -/
inductive Line where
  | enable
  | reset
  deriving DecidableEq, Repr

/-- A call into an external collaborator. -/
inductive Effect where
  | regulator_enable
  | gpiod_set_value (line : Line) (value : Int)
  | msleep (ms : Nat)
  | mipi_dsi_generic_write (payload : List Int)
  | mipi_dsi_dcs_set_display_on
  | mipi_dsi_dcs_set_display_off
  | mipi_dsi_dcs_enter_sleep_mode
  | backlight_enable (bd : Int)
  | backlight_disable (bd : Int)
  | drm_mode_duplicate
  | drm_mode_probed_add (mode : drm_display_mode)
  | devm_kzalloc
  | devm_gpiod_get_out_low (line : Line)
  | devm_regulator_get_optional
  | drm_panel_of_backlight
  | drm_panel_add
  | drm_panel_remove
  | mipi_dsi_attach
  deriving DecidableEq, Repr

/-- A line of kernel log output. -/
inductive LogEvent where
  | printk (msg : String) (args : List Int)
  | dev_err (msg : String) (args : List Int)
  deriving DecidableEq, Repr

/-- The return value of a collaborator call, given the calls made before it. -/
abbrev Oracle := List Effect → Effect → Int

/-- The hardware and framework outside the driver. -/
structure World where
  reset_line : Bool
  enable_line : Bool
  power_enables : Nat
  backlight_on : Bool
  probed_modes : List drm_display_mode
  trace : List Effect
  log : List LogEvent
  deriving DecidableEq, Repr

/-- The fields of `struct mipi_dsi_device` the driver writes. -/
structure mipi_dsi_device where
  mode_flags : Int
  format : Int
  lanes : Int
  deriving DecidableEq, Repr

/-- The driver context `struct s070wv20`; handles are pointer values
(0 is NULL), `mode` is the pointer `ctx->mode`. No function of the driver
assigns `backlight`. -/
structure s070wv20 where
  dsi : mipi_dsi_device
  backlight : Int
  enable_gpio : Int
  reset_gpio : Int
  power : Int
  mode : Option drm_display_mode
  deriving DecidableEq, Repr

/-! ## C arithmetic -/

/-- The result of an `int` operation, wrapped to 32 bits two's complement. -/
def wrapInt (x : Int) : Int := (x + 2 ^ 31) % 2 ^ 32 - 2 ^ 31

/-- Conversion of an `int` to a `u8` array element: the value modulo 2^8,
in 0..255. -/
def toU8 (x : Int) : Int := x % 2 ^ 8

/-! ## Collaborators -/

/-- Record a call and ask the oracle for its return value. -/
def call (o : Oracle) (e : Effect) (w : World) : Int × World :=
  (o w.trace e, { w with trace := w.trace ++ [e] })

/-- Append a line to the kernel log. -/
def klog (l : LogEvent) (w : World) : World :=
  { w with log := w.log ++ [l] }

/-- Modelled from the spec: the PowerRail capability `enable() → Result`
(the regulator core is not among the sources). A successful enable takes one
reference on the rail. -/
def regulator_enable (o : Oracle) (w : World) : Int × World :=
  let (ret, w) := call o Effect.regulator_enable w
  (ret, if ret = 0 then { w with power_enables := w.power_enables + 1 } else w)

/-- Modelled from the spec: the GpioLine capability `set(level)` (gpiolib is
not among the sources). The line takes the level `value != 0`. -/
def gpiod_set_value (line : Line) (value : Int) (w : World) : World :=
  let w := (call (fun _ _ => 0) (Effect.gpiod_set_value line value) w).2
  match line with
  | Line.reset => { w with reset_line := decide (value ≠ 0) }
  | Line.enable => { w with enable_line := decide (value ≠ 0) }

/-- Modelled from the spec: the injectable blocking delay (`linux/delay.h` is
not among the sources). -/
def msleep (ms : Nat) (w : World) : World :=
  (call (fun _ _ => 0) (Effect.msleep ms) w).2

/-- Modelled from the spec: the Transport capability
`write(address, payload) → Result` (the DSI core is not among the sources). -/
def mipi_dsi_generic_write (o : Oracle) (payload : List Int) (w : World) : Int × World :=
  call o (Effect.mipi_dsi_generic_write payload) w

/-- Modelled from the spec: the Transport wrapper `sendDisplayOn()`. -/
def mipi_dsi_dcs_set_display_on (o : Oracle) (w : World) : Int × World :=
  call o Effect.mipi_dsi_dcs_set_display_on w

/-- Modelled from the spec: the Transport wrapper `sendDisplayOff()`. -/
def mipi_dsi_dcs_set_display_off (o : Oracle) (w : World) : Int × World :=
  call o Effect.mipi_dsi_dcs_set_display_off w

/-- Modelled from the spec: the Transport wrapper `sendEnterSleep()`. -/
def mipi_dsi_dcs_enter_sleep_mode (o : Oracle) (w : World) : Int × World :=
  call o Effect.mipi_dsi_dcs_enter_sleep_mode w

/-- Modelled from the spec: the Backlight capability `enable()`, a side
device merely toggled on (`linux/backlight.h` is not among the sources). The
device is the one behind the handle `bd`; with a NULL handle there is no
device, so nothing is switched and the call returns 0. -/
def backlight_enable (o : Oracle) (bd : Int) (w : World) : Int × World :=
  let (ret, w) := call o (Effect.backlight_enable bd) w
  if bd = 0 then (0, w) else (ret, { w with backlight_on := true })

/-- Modelled from the spec: the Backlight capability `disable()`, a side
device merely toggled off. The device is the one behind the handle `bd`; with
a NULL handle there is no device, so nothing is switched and the call
returns 0. -/
def backlight_disable (o : Oracle) (bd : Int) (w : World) : Int × World :=
  let (ret, w) := call o (Effect.backlight_disable bd) w
  if bd = 0 then (0, w) else (ret, { w with backlight_on := false })

/-! ## The driver -/

/-- `chipone_dsi_write`: one generic write of `seq` on the DSI device. -/
def chipone_dsi_write (o : Oracle) (seq : List Int) (w : World) : Int × World :=
  mipi_dsi_generic_write o seq w

/-- The macro `CHIPONE_DSI`: `seq` initialises a `const u8 d[]`, which is
written; the result of the write is dropped. -/
def CHIPONE_DSI (o : Oracle) (seq : List Int) (w : World) : World :=
  (chipone_dsi_write o (seq.map toU8) w).2

/-- `icn6211_bridge_init`; `none` is the dereference of a NULL `icn->mode`. -/
def icn6211_bridge_init (k : Kernel) (o : Oracle) (icn : s070wv20) (w : World) : Option World :=
  let w := CHIPONE_DSI o [0x7A, 0xC1] w
  match icn.mode with
  | none => none
  | some mode =>
    let w := CHIPONE_DSI o [0x20, Int.land mode.hdisplay 0xff] w
    let w := CHIPONE_DSI o [0x21, Int.land mode.vdisplay 0xff] w
    let w := CHIPONE_DSI o [0x22, Int.lor (Int.land (Int.shiftRight mode.hdisplay 8) 0xf)
                                    (Int.land (Int.shiftRight mode.vdisplay 8) 0xf <<< (4 : Int))] w
    let w := CHIPONE_DSI o [0x23, wrapInt (mode.hsync_start - mode.hdisplay)] w
    let w := CHIPONE_DSI o [0x24, wrapInt (mode.hsync_end - mode.hsync_start)] w
    let w := CHIPONE_DSI o [0x25, wrapInt (mode.htotal - mode.hsync_end)] w
    let w := CHIPONE_DSI o [0x26, 0x00] w
    let w := CHIPONE_DSI o [0x27, wrapInt (mode.vsync_start - mode.vdisplay)] w
    let w := CHIPONE_DSI o [0x28, wrapInt (mode.vsync_end - mode.vsync_start)] w
    let w := CHIPONE_DSI o [0x29, wrapInt (mode.vtotal - mode.vsync_end)] w
    let w := CHIPONE_DSI o [k.MIPI_DCS_SET_TEAR_OFF, 0x80] w
    let w := CHIPONE_DSI o [k.MIPI_DCS_SET_ADDRESS_MODE, 0x28] w
    let w := CHIPONE_DSI o [0xB5, 0xA0] w
    let w := CHIPONE_DSI o [0x5C, 0xFF] w
    let w := CHIPONE_DSI o [k.MIPI_DCS_SET_COLUMN_ADDRESS, 0x01] w
    let w := CHIPONE_DSI o [k.MIPI_DCS_GET_POWER_SAVE, 0x92] w
    let w := CHIPONE_DSI o [0x6B, 0x71] w
    let w := CHIPONE_DSI o [0x69, 0x2B] w
    let w := CHIPONE_DSI o [k.MIPI_DCS_ENTER_SLEEP_MODE, 0x40] w
    let w := CHIPONE_DSI o [k.MIPI_DCS_EXIT_SLEEP_MODE, 0x98] w
    let w := CHIPONE_DSI o [0xB6, 0x20] w
    let w := CHIPONE_DSI o [0x51, 0x20] w
    let w := CHIPONE_DSI o [0x09, 0x10] w
    some w

/-- `s070wv20_prepare`. -/
def s070wv20_prepare (k : Kernel) (o : Oracle) (ctx : s070wv20) (w : World) :
    Option (Int × World) :=
  let w := klog (LogEvent.printk "s070wv20_prepare\n" []) w
  let (ret, w) := regulator_enable o w
  let w := if ret ≠ 0 then
      klog (LogEvent.dev_err "failed to enable VDD1 regulator: %d\n" [ret]) w
    else w
  let w := gpiod_set_value Line.reset 1 w
  let w := msleep 50 w
  let w := gpiod_set_value Line.enable 1 w
  let w := msleep 50 w
  let w := gpiod_set_value Line.reset 0 w
  let w := msleep 50 w
  let w := gpiod_set_value Line.reset 1 w
  let w := msleep 20 w
  match icn6211_bridge_init k o ctx w with
  | none => none
  | some w =>
    let w := klog (LogEvent.printk "s070wv20_prepare: done!\n" []) w
    some (0, w)

/-- `s070wv20_enable`. -/
def s070wv20_enable (o : Oracle) (ctx : s070wv20) (w : World) : Int × World :=
  let w := klog (LogEvent.printk "s070wv20_enable\n" []) w
  let w := msleep 120 w
  let w := (mipi_dsi_dcs_set_display_on o w).2
  let w := (backlight_enable o ctx.backlight w).2
  let w := klog (LogEvent.printk "s070wv20_enable: done!\n" []) w
  (0, w)

/-- `s070wv20_disable`. -/
def s070wv20_disable (o : Oracle) (ctx : s070wv20) (w : World) : Int × World :=
  let w := klog (LogEvent.printk "s070wv20_disable\n" []) w
  let w := (backlight_disable o ctx.backlight w).2
  mipi_dsi_dcs_set_display_on o w

/-- `s070wv20_unprepare`. -/
def s070wv20_unprepare (o : Oracle) (_ctx : s070wv20) (w : World) : Int × World :=
  let w := klog (LogEvent.printk "s070wv20_unprepare\n" []) w
  let (ret, w) := mipi_dsi_dcs_set_display_off o w
  let w := if ret < 0 then
      klog (LogEvent.dev_err "failed to set display off: %d\n" [ret]) w
    else w
  let (ret, w) := mipi_dsi_dcs_enter_sleep_mode o w
  let w := if ret < 0 then
      klog (LogEvent.dev_err "failed to enter sleep mode: %d\n" [ret]) w
    else w
  let w := msleep 100 w
  let w := gpiod_set_value Line.reset 0 w
  let w := gpiod_set_value Line.reset 1 w
  let w := gpiod_set_value Line.enable 0 w
  let w := gpiod_set_value Line.reset 0 w
  let w := klog (LogEvent.printk "s070wv20_unprepare: done!\n" []) w
  (0, w)

/-- `s070wv20_default_mode`; members without an initialiser are zero. -/
def s070wv20_default_mode : drm_display_mode where
  name := ""
  clock := 9000
  hdisplay := 320
  hsync_start := 320 + 70
  hsync_end := 320 + 70 + 20
  htotal := 320 + 70 + 20 + 20
  vdisplay := 240
  vsync_start := 240 + 70
  vsync_end := 240 + 70 + 20
  vtotal := 240 + 70 + 20 + 20
  type := 0

/-- Modelled from the spec: producing the timing descriptor, which can fail
(`drm_mode_duplicate` is not among the sources); `none` is the NULL pointer,
otherwise the result is a copy of `mode`. -/
def drm_mode_duplicate (o : Oracle) (mode : drm_display_mode) (w : World) :
    Option drm_display_mode × World :=
  let (p, w) := call o Effect.drm_mode_duplicate w
  (if p = 0 then none else some mode, w)

/-- Modelled from the spec: naming a descriptor (`drm_mode_set_name` is not
among the sources); only `name` is written. -/
def drm_mode_set_name (k : Kernel) (mode : drm_display_mode) : drm_display_mode :=
  { mode with name := k.mode_name mode }

/-- Modelled from the spec: reporting a mode to the host framework
(`drm_mode_probed_add` is not among the sources); the mode is appended to the
connector's list of probed modes. -/
def drm_mode_probed_add (mode : drm_display_mode) (w : World) : World :=
  let w := (call (fun _ _ => 0) (Effect.drm_mode_probed_add mode) w).2
  { w with probed_modes := w.probed_modes ++ [mode] }

/-- `s070wv20_get_modes`. -/
def s070wv20_get_modes (k : Kernel) (o : Oracle) (ctx : s070wv20) (w : World) :
    Int × s070wv20 × World :=
  let w := klog (LogEvent.printk "s070wv20_get_modes\n" []) w
  let (mode, w) := drm_mode_duplicate o s070wv20_default_mode w
  match mode with
  | none =>
    let w := klog (LogEvent.dev_err "failed to add mode %ux%ux@%u\n"
      [s070wv20_default_mode.hdisplay, s070wv20_default_mode.vdisplay,
       k.drm_mode_vrefresh s070wv20_default_mode]) w
    (-k.ENOMEM, ctx, w)
  | some mode =>
    let mode := drm_mode_set_name k mode
    let mode := { mode with type := Int.lor k.DRM_MODE_TYPE_DRIVER k.DRM_MODE_TYPE_PREFERRED }
    let w := drm_mode_probed_add mode w
    let ctx := { ctx with mode := some mode }
    let w := klog (LogEvent.printk "s070wv20_get_modes: done!\n" []) w
    (1, ctx, w)

/-- The macro `IS_ERR` on a pointer value read as a signed long: the last
`MAX_ERRNO` addresses encode an error (`linux/err.h` is not among the sources). -/
def IS_ERR (k : Kernel) (p : Int) : Bool := decide (-k.MAX_ERRNO ≤ p ∧ p < 0)

/-- The macro `PTR_ERR`: the pointer value as an error code. -/
def PTR_ERR (p : Int) : Int := p

/-- Modelled from the spec: acquiring a GpioLine handle at construction
(gpiolib is not among the sources). With `GPIOD_OUT_LOW` a line that is
obtained is configured as an output driving low. -/
def devm_gpiod_get_out_low (k : Kernel) (o : Oracle) (line : Line) (w : World) : Int × World :=
  let (p, w) := call o (Effect.devm_gpiod_get_out_low line) w
  if IS_ERR k p then (p, w)
  else match line with
    | Line.reset => (p, { w with reset_line := false })
    | Line.enable => (p, { w with enable_line := false })

/-- `s070wv20_dsi_probe`. The second component is the context allocated for
the device (`none` when the allocation failed); `devm_kzalloc` zeroes it, and
`ctx->backlight` and `ctx->mode` are not assigned here. The bookkeeping calls
`mipi_dsi_set_drvdata` and `drm_panel_init` have no effect on the world. -/
def s070wv20_dsi_probe (k : Kernel) (o : Oracle) (dsi : mipi_dsi_device) (w : World) :
    Int × Option s070wv20 × World :=
  let w := klog (LogEvent.printk "s070wv20_dsi_probe: In\n" []) w
  let (p, w) := call o Effect.devm_kzalloc w
  if p = 0 then (-k.ENOMEM, none, w)
  else
    let ctx : s070wv20 :=
      { dsi := dsi, backlight := 0, enable_gpio := 0, reset_gpio := 0, power := 0, mode := none }
    let (p, w) := devm_gpiod_get_out_low k o Line.enable w
    let ctx := { ctx with enable_gpio := p }
    if IS_ERR k ctx.enable_gpio then
      let w := klog (LogEvent.dev_err "Couldn\x27t get our enable GPIO\n" []) w
      (PTR_ERR ctx.enable_gpio, some ctx, w)
    else
      let (p, w) := devm_gpiod_get_out_low k o Line.reset w
      let ctx := { ctx with reset_gpio := p }
      if IS_ERR k ctx.reset_gpio then
        let w := klog (LogEvent.dev_err "Couldn\x27t get our reset GPIO\n" []) w
        (PTR_ERR ctx.reset_gpio, some ctx, w)
      else
        let (p, w) := call o Effect.devm_regulator_get_optional w
        let ctx := { ctx with power := p }
        if IS_ERR k ctx.power ∧ PTR_ERR ctx.power = -k.EPROBE_DEFER then
          (-k.EPROBE_DEFER, some ctx, w)
        else
          let (ctx, w) :=
            if IS_ERR k ctx.power then
              let ret := PTR_ERR ctx.power
              ({ ctx with power := 0 },
               klog (LogEvent.dev_err "failed to get power regulator: %d\n" [ret]) w)
            else (ctx, w)
          let (ret, w) := call o Effect.drm_panel_of_backlight w
          if ret ≠ 0 then (ret, some ctx, w)
          else
            let w := (call (fun _ _ => 0) Effect.drm_panel_add w).2
            let ctx := { ctx with dsi := { ctx.dsi with
              mode_flags := k.MIPI_DSI_MODE_VIDEO_SYNC_PULSE,
              format := k.MIPI_DSI_FMT_RGB888,
              lanes := 4 } }
            let (ret, w) := call o Effect.mipi_dsi_attach w
            if ret < 0 then
              let w := klog (LogEvent.printk "s070wv20_dsi_probe failed! (ret=%d)\n" [ret]) w
              let w := (call (fun _ _ => 0) Effect.drm_panel_remove w).2
              (ret, some ctx, w)
            else
              let w := klog (LogEvent.printk "s070wv20_dsi_probe done!\n" []) w
              (0, some ctx, w)

/-- The payloads of the generic DSI writes of a trace, in order. -/
def writes (t : List Effect) : List (List Int) :=
  t.filterMap fun e =>
    match e with
    | Effect.mipi_dsi_generic_write payload => some payload
    | _ => none

/-- The register sequence emitted by `icn6211_bridge_init`: the payloads of
the generic writes it adds to the trace (`none` if it faults). -/
def emitted (k : Kernel) (o : Oracle) (icn : s070wv20) (w : World) : Option (List (List Int)) :=
  (icn6211_bridge_init k o icn w).map fun w1 => writes (w1.trace.drop w.trace.length)

/-- The first byte of each write of a register sequence. -/
def addresses (l : List (List Int)) : List (Option Int) := l.map List.head?

/-- The descriptor `s070wv20_get_modes` builds when the duplication succeeds:
the copy of `s070wv20_default_mode` after `drm_mode_set_name` and the
assignment to `mode->type`. -/
def get_modes_mode (k : Kernel) : drm_display_mode :=
  { drm_mode_set_name k s070wv20_default_mode with
    type := Int.lor k.DRM_MODE_TYPE_DRIVER k.DRM_MODE_TYPE_PREFERRED }

/-- The four lifecycle operations in order: `s070wv20_prepare`,
`s070wv20_enable`, `s070wv20_disable`, `s070wv20_unprepare`; the world at the
end (`none` if prepare faults). -/
def lifecycle (k : Kernel) (o : Oracle) (ctx : s070wv20) (w : World) : Option World :=
  match s070wv20_prepare k o ctx w with
  | none => none
  | some (_, w) =>
    let w := (s070wv20_enable o ctx w).2
    let w := (s070wv20_disable o ctx w).2
    some (s070wv20_unprepare o ctx w).2

/-- The power/reset handshake of `s070wv20_prepare` after the rail-enable
attempt, as calls on the collaborators. -/
def handshake : List Effect :=
  [Effect.gpiod_set_value Line.reset 1, Effect.msleep 50,
   Effect.gpiod_set_value Line.enable 1, Effect.msleep 50,
   Effect.gpiod_set_value Line.reset 0, Effect.msleep 50,
   Effect.gpiod_set_value Line.reset 1, Effect.msleep 20]

/-! ## Concrete inputs -/

/-- An oracle under which every collaborator call succeeds: calls that
return a pointer return a valid one, calls that return a status return 0. -/
def okOracle : Oracle := fun _ e =>
  match e with
  | Effect.drm_mode_duplicate => 1
  | Effect.devm_kzalloc => 1
  | Effect.devm_gpiod_get_out_low _ => 1
  | Effect.devm_regulator_get_optional => 1
  | _ => 0

/-- An oracle under which every collaborator call fails with `-EIO`
(a NULL pointer for the allocations). -/
def failOracle : Oracle := fun _ e =>
  match e with
  | Effect.drm_mode_duplicate => 0
  | Effect.devm_kzalloc => 0
  | _ => -5

/-- A world before the driver is bound, with nothing recorded. -/
def world0 : World where
  reset_line := false
  enable_line := false
  power_enables := 0
  backlight_on := false
  probed_modes := []
  trace := []
  log := []

/-- A DSI device before the driver is bound. -/
def dsi0 : mipi_dsi_device where
  mode_flags := 0
  format := 0
  lanes := 0

/-- A timing with a front porch wider than 8 bits (HFP = 300) and negative
deltas (HSYNC = -210, VFP = -1). -/
def wideMode : drm_display_mode :=
  { s070wv20_default_mode with hsync_start := 620, vsync_start := 239 }

/-- A second timing, whose deltas differ from those of `wideMode` by
multiples of 256 (HFP = 44, HSYNC = 46, VFP = 255, VSYNC = 91 - 256). -/
def narrowMode : drm_display_mode :=
  { s070wv20_default_mode with hsync_start := 364, vsync_start := 495 }

/-- A context whose mode is `mode` and whose handles are valid. -/
def ctxWith (mode : Option drm_display_mode) : s070wv20 where
  dsi := dsi0
  backlight := 0
  enable_gpio := 1
  reset_gpio := 1
  power := 1
  mode := mode

/-- The context and the world when the driver has been bound under
`okOracle` (`s070wv20_dsi_probe`) and the host has queried the modes once
(`s070wv20_get_modes`): the panel as constructed, never prepared. -/
def boundPanel : s070wv20 × World :=
  match s070wv20_dsi_probe linux okOracle dsi0 world0 with
  | (_, some ctx, w) =>
    let r := s070wv20_get_modes linux okOracle ctx w
    (r.2.1, r.2.2)
  | (_, none, w) => (ctxWith none, w)

/-- The world of the bound panel with the backlight on, as after the host
framework has switched it on outside this driver. -/
def litWorld : World := { boundPanel.2 with backlight_on := true }

/-! ## Lemmas -/

theorem toU8_wrapInt (x : Int) : toU8 (wrapInt x) = x % 256 := by
  unfold toU8 wrapInt
  omega

theorem toU8_of_byte (x : Int) (h0 : 0 ≤ x) (h1 : x ≤ 255) : toU8 x = x := by
  unfold toU8
  omega

theorem toU8_range (x : Int) : 0 ≤ toU8 x ∧ toU8 x ≤ 255 := by
  unfold toU8
  omega

/-- The trace of `icn6211_bridge_init` when a mode is attached: twenty-four
generic writes, and nothing else in the world changes. -/
theorem icn6211_bridge_init_eq (k : Kernel) (o : Oracle) (icn : s070wv20) (w : World)
    (m : drm_display_mode) (h : icn.mode = some m) :
    icn6211_bridge_init k o icn w = some { w with trace := w.trace ++
      [Effect.mipi_dsi_generic_write [toU8 0x7A, toU8 0xC1],
       Effect.mipi_dsi_generic_write [toU8 0x20, toU8 (Int.land m.hdisplay 0xff)],
       Effect.mipi_dsi_generic_write [toU8 0x21, toU8 (Int.land m.vdisplay 0xff)],
       Effect.mipi_dsi_generic_write [toU8 0x22,
         toU8 (Int.lor (Int.land (Int.shiftRight m.hdisplay 8) 0xf)
           (Int.land (Int.shiftRight m.vdisplay 8) 0xf <<< (4 : Int)))],
       Effect.mipi_dsi_generic_write [toU8 0x23, toU8 (wrapInt (m.hsync_start - m.hdisplay))],
       Effect.mipi_dsi_generic_write [toU8 0x24, toU8 (wrapInt (m.hsync_end - m.hsync_start))],
       Effect.mipi_dsi_generic_write [toU8 0x25, toU8 (wrapInt (m.htotal - m.hsync_end))],
       Effect.mipi_dsi_generic_write [toU8 0x26, toU8 0x00],
       Effect.mipi_dsi_generic_write [toU8 0x27, toU8 (wrapInt (m.vsync_start - m.vdisplay))],
       Effect.mipi_dsi_generic_write [toU8 0x28, toU8 (wrapInt (m.vsync_end - m.vsync_start))],
       Effect.mipi_dsi_generic_write [toU8 0x29, toU8 (wrapInt (m.vtotal - m.vsync_end))],
       Effect.mipi_dsi_generic_write [toU8 k.MIPI_DCS_SET_TEAR_OFF, toU8 0x80],
       Effect.mipi_dsi_generic_write [toU8 k.MIPI_DCS_SET_ADDRESS_MODE, toU8 0x28],
       Effect.mipi_dsi_generic_write [toU8 0xB5, toU8 0xA0],
       Effect.mipi_dsi_generic_write [toU8 0x5C, toU8 0xFF],
       Effect.mipi_dsi_generic_write [toU8 k.MIPI_DCS_SET_COLUMN_ADDRESS, toU8 0x01],
       Effect.mipi_dsi_generic_write [toU8 k.MIPI_DCS_GET_POWER_SAVE, toU8 0x92],
       Effect.mipi_dsi_generic_write [toU8 0x6B, toU8 0x71],
       Effect.mipi_dsi_generic_write [toU8 0x69, toU8 0x2B],
       Effect.mipi_dsi_generic_write [toU8 k.MIPI_DCS_ENTER_SLEEP_MODE, toU8 0x40],
       Effect.mipi_dsi_generic_write [toU8 k.MIPI_DCS_EXIT_SLEEP_MODE, toU8 0x98],
       Effect.mipi_dsi_generic_write [toU8 0xB6, toU8 0x20],
       Effect.mipi_dsi_generic_write [toU8 0x51, toU8 0x20],
       Effect.mipi_dsi_generic_write [toU8 0x09, toU8 0x10]] } := by
  simp only [icn6211_bridge_init, h, CHIPONE_DSI, chipone_dsi_write, mipi_dsi_generic_write, call,
    List.map_cons, List.map_nil, List.append_assoc, List.cons_append, List.nil_append]

/-- The register sequence of `icn6211_bridge_init` when a mode is attached. -/
theorem emitted_eq (k : Kernel) (o : Oracle) (icn : s070wv20) (w : World)
    (m : drm_display_mode) (h : icn.mode = some m) :
    emitted k o icn w = some
      [[toU8 0x7A, toU8 0xC1],
       [toU8 0x20, toU8 (Int.land m.hdisplay 0xff)],
       [toU8 0x21, toU8 (Int.land m.vdisplay 0xff)],
       [toU8 0x22, toU8 (Int.lor (Int.land (Int.shiftRight m.hdisplay 8) 0xf)
           (Int.land (Int.shiftRight m.vdisplay 8) 0xf <<< (4 : Int)))],
       [toU8 0x23, toU8 (wrapInt (m.hsync_start - m.hdisplay))],
       [toU8 0x24, toU8 (wrapInt (m.hsync_end - m.hsync_start))],
       [toU8 0x25, toU8 (wrapInt (m.htotal - m.hsync_end))],
       [toU8 0x26, toU8 0x00],
       [toU8 0x27, toU8 (wrapInt (m.vsync_start - m.vdisplay))],
       [toU8 0x28, toU8 (wrapInt (m.vsync_end - m.vsync_start))],
       [toU8 0x29, toU8 (wrapInt (m.vtotal - m.vsync_end))],
       [toU8 k.MIPI_DCS_SET_TEAR_OFF, toU8 0x80],
       [toU8 k.MIPI_DCS_SET_ADDRESS_MODE, toU8 0x28],
       [toU8 0xB5, toU8 0xA0],
       [toU8 0x5C, toU8 0xFF],
       [toU8 k.MIPI_DCS_SET_COLUMN_ADDRESS, toU8 0x01],
       [toU8 k.MIPI_DCS_GET_POWER_SAVE, toU8 0x92],
       [toU8 0x6B, toU8 0x71],
       [toU8 0x69, toU8 0x2B],
       [toU8 k.MIPI_DCS_ENTER_SLEEP_MODE, toU8 0x40],
       [toU8 k.MIPI_DCS_EXIT_SLEEP_MODE, toU8 0x98],
       [toU8 0xB6, toU8 0x20],
       [toU8 0x51, toU8 0x20],
       [toU8 0x09, toU8 0x10]] := by
  simp only [emitted, icn6211_bridge_init_eq k o icn w m h, Option.map_some', List.drop_left,
    writes, List.filterMap_cons, List.filterMap_nil]

theorem toU8_lit :
    toU8 0x7A = 0x7A ∧ toU8 0xC1 = 0xC1 ∧ toU8 0x20 = 0x20 ∧ toU8 0x21 = 0x21 ∧
    toU8 0x22 = 0x22 ∧ toU8 0x23 = 0x23 ∧ toU8 0x24 = 0x24 ∧ toU8 0x25 = 0x25 ∧
    toU8 0x26 = 0x26 ∧ toU8 0x00 = 0x00 ∧ toU8 0x27 = 0x27 ∧ toU8 0x28 = 0x28 ∧
    toU8 0x29 = 0x29 ∧ toU8 0x80 = 0x80 ∧ toU8 0xB5 = 0xB5 ∧ toU8 0xA0 = 0xA0 ∧
    toU8 0x5C = 0x5C ∧ toU8 0xFF = 0xFF ∧ toU8 0x01 = 0x01 ∧ toU8 0x92 = 0x92 ∧
    toU8 0x6B = 0x6B ∧ toU8 0x71 = 0x71 ∧ toU8 0x69 = 0x69 ∧ toU8 0x2B = 0x2B ∧
    toU8 0x40 = 0x40 ∧ toU8 0x98 = 0x98 ∧ toU8 0xB6 = 0xB6 ∧ toU8 0x51 = 0x51 ∧
    toU8 0x09 = 0x09 ∧ toU8 0x10 = 0x10 := by
  simp only [toU8]
  decide

/-- For a non-negative `int`, `x & 0xff` is `x mod 256`. -/
theorem land_ff (x : Int) (h0 : 0 ≤ x) : Int.land x 0xff = x % 256 := by
  obtain ⟨n, rfl⟩ := Int.eq_ofNat_of_zero_le h0
  show ((n &&& 255 : Nat) : Int) = (n : Int) % 256
  rw [show n &&& 255 = n % 256 from Nat.and_pow_two_sub_one_eq_mod n 8]
  norm_cast

/-- For an `int` in 0..4095, `(x >> 8) & 0xf` is `x / 256`. -/
theorem nibble_eq (x : Int) (h0 : 0 ≤ x) (h1 : x ≤ 4095) :
    Int.land (Int.shiftRight x 8) 0xf = x / 256 := by
  obtain ⟨n, rfl⟩ := Int.eq_ofNat_of_zero_le h0
  show (((n >>> 8) &&& 15 : Nat) : Int) = (n : Int) / 256
  have hn : n ≤ 4095 := by exact_mod_cast h1
  rw [show (n >>> 8) &&& 15 = (n >>> 8) % 16 from Nat.and_pow_two_sub_one_eq_mod _ 4,
    Nat.shiftRight_eq_div_pow]
  have : n / 2 ^ 8 % 16 = n / 256 := by omega
  rw [this]
  norm_cast

/-- Two nibbles `a | (b << 4)` pack to `a + 16 * b`. -/
theorem pack_eq (a b : Int) (ha0 : 0 ≤ a) (ha1 : a ≤ 15) (hb0 : 0 ≤ b) (hb1 : b ≤ 15) :
    Int.lor a (b <<< (4 : Int)) = a + 16 * b := by
  obtain ⟨x, rfl⟩ := Int.eq_ofNat_of_zero_le ha0
  obtain ⟨y, rfl⟩ := Int.eq_ofNat_of_zero_le hb0
  show ((x ||| (y <<< 4) : Nat) : Int) = (x : Int) + 16 * (y : Int)
  have hx : x < 16 := by omega
  have hy : y < 16 := by omega
  have key : ∀ a < 16, ∀ b < 16, a ||| (b <<< 4) = a + 16 * b := by decide
  rw [key x hx y hy]
  norm_cast

/-- The packed resolution byte for `hdisplay`, `vdisplay` in 0..4095. -/
theorem packed_eq (h v : Int) (h0 : 0 ≤ h) (h1 : h ≤ 4095) (v0 : 0 ≤ v) (v1 : v ≤ 4095) :
    toU8 (Int.lor (Int.land (Int.shiftRight h 8) 0xf)
      (Int.land (Int.shiftRight v 8) 0xf <<< (4 : Int))) = h / 256 + 16 * (v / 256) := by
  rw [nibble_eq h h0 h1, nibble_eq v v0 v1,
    pack_eq (h / 256) (v / 256) (by omega) (by omega) (by omega) (by omega)]
  exact toU8_of_byte _ (by omega) (by omega)

/-! ## Register programmer -/

/-- C1: when a mode is attached and each of its six deltas lies in 0..255, the
sequence emitted by `icn6211_bridge_init` contains, in this order, the two-byte
writes (0x23, hsync_start - hdisplay), (0x24, hsync_end - hsync_start),
(0x25, htotal - hsync_end), (0x27, vsync_start - vdisplay),
(0x28, vsync_end - vsync_start), (0x29, vtotal - vsync_end), with exactly those
values; they are the writes number 4 to 6 and 8 to 10 of the sequence. -/
theorem C1_timing_deltas_exact (k : Kernel) (o : Oracle) (icn : s070wv20) (w : World)
    (m : drm_display_mode) (h : icn.mode = some m)
    (hfp : 0 ≤ m.hsync_start - m.hdisplay ∧ m.hsync_start - m.hdisplay ≤ 255)
    (hsync : 0 ≤ m.hsync_end - m.hsync_start ∧ m.hsync_end - m.hsync_start ≤ 255)
    (hbp : 0 ≤ m.htotal - m.hsync_end ∧ m.htotal - m.hsync_end ≤ 255)
    (vfp : 0 ≤ m.vsync_start - m.vdisplay ∧ m.vsync_start - m.vdisplay ≤ 255)
    (vsync : 0 ≤ m.vsync_end - m.vsync_start ∧ m.vsync_end - m.vsync_start ≤ 255)
    (vbp : 0 ≤ m.vtotal - m.vsync_end ∧ m.vtotal - m.vsync_end ≤ 255) :
    ∃ l, emitted k o icn w = some l ∧
      List.Sublist
        [[0x23, m.hsync_start - m.hdisplay], [0x24, m.hsync_end - m.hsync_start],
         [0x25, m.htotal - m.hsync_end], [0x27, m.vsync_start - m.vdisplay],
         [0x28, m.vsync_end - m.vsync_start], [0x29, m.vtotal - m.vsync_end]] l ∧
      (l.drop 4).take 3 =
        [[0x23, m.hsync_start - m.hdisplay], [0x24, m.hsync_end - m.hsync_start],
         [0x25, m.htotal - m.hsync_end]] ∧
      (l.drop 8).take 3 =
        [[0x27, m.vsync_start - m.vdisplay], [0x28, m.vsync_end - m.vsync_start],
         [0x29, m.vtotal - m.vsync_end]] := by
  refine ⟨_, emitted_eq k o icn w m h, ?_, ?_, ?_⟩
  · rw [toU8_wrapInt, toU8_wrapInt, toU8_wrapInt, toU8_wrapInt, toU8_wrapInt, toU8_wrapInt,
      Int.emod_eq_of_lt hfp.1 (by omega), Int.emod_eq_of_lt hsync.1 (by omega),
      Int.emod_eq_of_lt hbp.1 (by omega), Int.emod_eq_of_lt vfp.1 (by omega),
      Int.emod_eq_of_lt vsync.1 (by omega), Int.emod_eq_of_lt vbp.1 (by omega),
      toU8_lit.2.2.2.2.2.1, toU8_lit.2.2.2.2.2.2.1, toU8_lit.2.2.2.2.2.2.2.1,
      toU8_lit.2.2.2.2.2.2.2.2.2.2.1, toU8_lit.2.2.2.2.2.2.2.2.2.2.2.1,
      toU8_lit.2.2.2.2.2.2.2.2.2.2.2.2.1]
    exact .cons _ (.cons _ (.cons _ (.cons _ (.cons₂ _ (.cons₂ _ (.cons₂ _ (.cons _
      (.cons₂ _ (.cons₂ _ (.cons₂ _ (List.nil_sublist _)))))))))))
  · simp only [List.drop_succ_cons, List.drop_zero, List.take_succ_cons, List.take_zero,
      toU8_wrapInt, Int.emod_eq_of_lt hfp.1 (show m.hsync_start - m.hdisplay < 256 by omega),
      Int.emod_eq_of_lt hsync.1 (show m.hsync_end - m.hsync_start < 256 by omega),
      Int.emod_eq_of_lt hbp.1 (show m.htotal - m.hsync_end < 256 by omega),
      toU8_lit.2.2.2.2.2.1, toU8_lit.2.2.2.2.2.2.1, toU8_lit.2.2.2.2.2.2.2.1]
  · simp only [List.drop_succ_cons, List.drop_zero, List.take_succ_cons, List.take_zero,
      toU8_wrapInt, Int.emod_eq_of_lt vfp.1 (show m.vsync_start - m.vdisplay < 256 by omega),
      Int.emod_eq_of_lt vsync.1 (show m.vsync_end - m.vsync_start < 256 by omega),
      Int.emod_eq_of_lt vbp.1 (show m.vtotal - m.vsync_end < 256 by omega),
      toU8_lit.2.2.2.2.2.2.2.2.2.2.1, toU8_lit.2.2.2.2.2.2.2.2.2.2.2.1,
      toU8_lit.2.2.2.2.2.2.2.2.2.2.2.2.1]

/-- C1 at the built-in default mode (h = 320/390/410/430, v = 240/310/330/350):
HFP = 70, HSYNC = 20, HBP = 20, VFP = 70, VSYNC = 20, VBP = 20. -/
theorem C1_default_mode_witness :
    ∃ l, emitted linux okOracle (ctxWith (some s070wv20_default_mode)) world0 = some l ∧
      List.Sublist [[0x23, 70], [0x24, 20], [0x25, 20], [0x27, 70], [0x28, 20], [0x29, 20]] l ∧
      (l.drop 4).take 3 = [[0x23, 70], [0x24, 20], [0x25, 20]] ∧
      (l.drop 8).take 3 = [[0x27, 70], [0x28, 20], [0x29, 20]] :=
  C1_timing_deltas_exact linux okOracle (ctxWith (some s070wv20_default_mode)) world0
    s070wv20_default_mode rfl (by decide) (by decide) (by decide) (by decide) (by decide)
    (by decide)

/-- C2: when a mode with `hdisplay` and `vdisplay` in 0..4095 is attached, the
writes number 1 to 3 emitted by `icn6211_bridge_init` are
(0x20, hdisplay mod 256), (0x21, vdisplay mod 256), (0x22, p) with
p = hdisplay / 256 + 16 * (vdisplay / 256): the low nibble of p is bits 8-11 of
`hdisplay`, the high nibble is bits 8-11 of `vdisplay`, and both dimensions are
recovered from the three bytes. -/
theorem C2_resolution_packing (k : Kernel) (o : Oracle) (icn : s070wv20) (w : World)
    (m : drm_display_mode) (h : icn.mode = some m)
    (h0 : 0 ≤ m.hdisplay) (h1 : m.hdisplay ≤ 4095)
    (v0 : 0 ≤ m.vdisplay) (v1 : m.vdisplay ≤ 4095) :
    ∃ l b20 b21 p, emitted k o icn w = some l ∧
      (l.drop 1).take 3 = [[0x20, b20], [0x21, b21], [0x22, p]] ∧
      b20 = m.hdisplay % 256 ∧ b21 = m.vdisplay % 256 ∧
      p = m.hdisplay / 256 + 16 * (m.vdisplay / 256) ∧
      p % 16 = m.hdisplay / 256 % 16 ∧ p / 16 = m.vdisplay / 256 % 16 ∧
      m.hdisplay = b20 + 256 * (p % 16) ∧ m.vdisplay = b21 + 256 * (p / 16) := by
  refine ⟨_, m.hdisplay % 256, m.vdisplay % 256, m.hdisplay / 256 + 16 * (m.vdisplay / 256),
    emitted_eq k o icn w m h, ?_, rfl, rfl, rfl, ?_, ?_, ?_, ?_⟩
  · simp only [List.drop_succ_cons, List.drop_zero, List.take_succ_cons, List.take_zero,
      packed_eq m.hdisplay m.vdisplay h0 h1 v0 v1, land_ff m.hdisplay h0, land_ff m.vdisplay v0,
      toU8_lit.2.2.1, toU8_lit.2.2.2.1, toU8_lit.2.2.2.2.1]
    rw [toU8_of_byte (m.hdisplay % 256) (by omega) (by omega),
      toU8_of_byte (m.vdisplay % 256) (by omega) (by omega)]
  · omega
  · omega
  · omega
  · omega

/-- C2 at `hdisplay` = 320, `vdisplay` = 240: the bytes are 0x40, 0xF0 and 0x01. -/
theorem C2_default_mode_witness :
    ∃ l b20 b21 p, emitted linux okOracle (ctxWith (some s070wv20_default_mode)) world0 = some l ∧
      (l.drop 1).take 3 = [[0x20, b20], [0x21, b21], [0x22, p]] ∧
      b20 = 0x40 ∧ b21 = 0xF0 ∧ p = 0x01 ∧
      p % 16 = 1 ∧ p / 16 = 0 ∧
      (320 : Int) = b20 + 256 * (p % 16) ∧ (240 : Int) = b21 + 256 * (p / 16) :=
  C2_resolution_packing linux okOracle (ctxWith (some s070wv20_default_mode)) world0
    s070wv20_default_mode rfl (by decide) (by decide) (by decide) (by decide)

/-- C10: `icn6211_bridge_init` neither rejects nor saturates a timing delta.
For every attached mode the sequence is emitted and each of the six timing
payload bytes (registers 0x23, 0x24, 0x25, 0x27, 0x28, 0x29) is the integer
difference modulo 256; so a second timing whose six deltas differ from the
first by multiples of 256 emits the same timing bytes. -/
theorem C10_deltas_wrap_mod_256 (k : Kernel) (o : Oracle) (icn : s070wv20) (w : World)
    (m : drm_display_mode) (h : icn.mode = some m) :
    ∃ l, emitted k o icn w = some l ∧
      (l.drop 4).take 3 =
        [[0x23, (m.hsync_start - m.hdisplay) % 256], [0x24, (m.hsync_end - m.hsync_start) % 256],
         [0x25, (m.htotal - m.hsync_end) % 256]] ∧
      (l.drop 8).take 3 =
        [[0x27, (m.vsync_start - m.vdisplay) % 256], [0x28, (m.vsync_end - m.vsync_start) % 256],
         [0x29, (m.vtotal - m.vsync_end) % 256]] ∧
      ∀ (icn2 : s070wv20) (m2 : drm_display_mode), icn2.mode = some m2 →
        (256 : Int) ∣ (m2.hsync_start - m2.hdisplay) - (m.hsync_start - m.hdisplay) →
        (256 : Int) ∣ (m2.hsync_end - m2.hsync_start) - (m.hsync_end - m.hsync_start) →
        (256 : Int) ∣ (m2.htotal - m2.hsync_end) - (m.htotal - m.hsync_end) →
        (256 : Int) ∣ (m2.vsync_start - m2.vdisplay) - (m.vsync_start - m.vdisplay) →
        (256 : Int) ∣ (m2.vsync_end - m2.vsync_start) - (m.vsync_end - m.vsync_start) →
        (256 : Int) ∣ (m2.vtotal - m2.vsync_end) - (m.vtotal - m.vsync_end) →
        ∃ l2, emitted k o icn2 w = some l2 ∧
          (l2.drop 4).take 3 = (l.drop 4).take 3 ∧ (l2.drop 8).take 3 = (l.drop 8).take 3 := by
  refine ⟨_, emitted_eq k o icn w m h, ?_, ?_, ?_⟩
  · simp only [List.drop_succ_cons, List.drop_zero, List.take_succ_cons, List.take_zero,
      toU8_wrapInt, toU8_lit.2.2.2.2.2.1, toU8_lit.2.2.2.2.2.2.1, toU8_lit.2.2.2.2.2.2.2.1]
  · simp only [List.drop_succ_cons, List.drop_zero, List.take_succ_cons, List.take_zero,
      toU8_wrapInt, toU8_lit.2.2.2.2.2.2.2.2.2.2.1, toU8_lit.2.2.2.2.2.2.2.2.2.2.2.1,
      toU8_lit.2.2.2.2.2.2.2.2.2.2.2.2.1]
  · intro icn2 m2 h2 d1 d2 d3 d4 d5 d6
    refine ⟨_, emitted_eq k o icn2 w m2 h2, ?_, ?_⟩
    · simp only [List.drop_succ_cons, List.drop_zero, List.take_succ_cons, List.take_zero,
        toU8_wrapInt]
      rw [show (m2.hsync_start - m2.hdisplay) % 256 = (m.hsync_start - m.hdisplay) % 256 by omega,
        show (m2.hsync_end - m2.hsync_start) % 256 = (m.hsync_end - m.hsync_start) % 256 by omega,
        show (m2.htotal - m2.hsync_end) % 256 = (m.htotal - m.hsync_end) % 256 by omega]
    · simp only [List.drop_succ_cons, List.drop_zero, List.take_succ_cons, List.take_zero,
        toU8_wrapInt]
      rw [show (m2.vsync_start - m2.vdisplay) % 256 = (m.vsync_start - m.vdisplay) % 256 by omega,
        show (m2.vsync_end - m2.vsync_start) % 256 = (m.vsync_end - m.vsync_start) % 256 by omega,
        show (m2.vtotal - m2.vsync_end) % 256 = (m.vtotal - m.vsync_end) % 256 by omega]

/-- C10 at `wideMode`: the deltas 300, -210 and -1 are emitted as 44, 46 and
255, and `narrowMode`, whose deltas are 44, 46 and 255, emits the same bytes. -/
theorem C10_wide_mode_witness :
    ∃ l, emitted linux okOracle (ctxWith (some wideMode)) world0 = some l ∧
      (l.drop 4).take 3 = [[0x23, 44], [0x24, 46], [0x25, 20]] ∧
      (l.drop 8).take 3 = [[0x27, 255], [0x28, 91], [0x29, 20]] ∧
      ∃ l2, emitted linux okOracle (ctxWith (some narrowMode)) world0 = some l2 ∧
        (l2.drop 4).take 3 = (l.drop 4).take 3 ∧ (l2.drop 8).take 3 = (l.drop 8).take 3 := by
  obtain ⟨l, hl, a, b, c⟩ :=
    C10_deltas_wrap_mod_256 linux okOracle (ctxWith (some wideMode)) world0 wideMode rfl
  exact ⟨l, hl, a, b,
    c (ctxWith (some narrowMode)) narrowMode rfl (by decide) (by decide) (by decide) (by decide)
      (by decide) (by decide)⟩

/-- C9 as stated fails: at the default mode the sequence emitted by
`icn6211_bridge_init` is not eleven writes (bank select, three resolution
writes, three horizontal writes, the reserved write, three vertical writes)
followed by a vendor tail of fourteen writes. -/
theorem C9_tail_not_fourteen :
    ¬ ∃ head tail : List (List Int), head.length = 11 ∧ tail.length = 14 ∧
      emitted linux okOracle (ctxWith (some s070wv20_default_mode)) world0 =
        some (head ++ tail) := by
  rintro ⟨head, tail, h1, h2, h3⟩
  rw [emitted_eq linux okOracle _ world0 s070wv20_default_mode rfl] at h3
  have h4 := congrArg (Option.map List.length) h3
  simp only [Option.map_some', List.length_cons, List.length_nil, List.length_append, h1, h2]
    at h4
  exact absurd (Option.some.inj h4) (by decide)

/-- C9, amended: for every attached mode the sequence emitted by
`icn6211_bridge_init` is the bank-select write (0x7A, 0xC1), the writes to
0x20, 0x21, 0x22, the writes to 0x23, 0x24, 0x25, the reserved write
(0x26, 0x00), the writes to 0x27, 0x28, 0x29, and then a timing-independent
vendor tail of thirteen writes with constant payloads. Every write is two
bytes, every byte lies in 0..255, and the addresses are the same for every
timing, oracle and world. -/
theorem C9_fixed_shape_thirteen_tail (k : Kernel) (o : Oracle) (icn : s070wv20) (w : World)
    (m : drm_display_mode) (h : icn.mode = some m) :
    ∃ (b20 b21 b22 b23 b24 b25 b27 b28 b29 : Int) (tail : List (List Int)),
      emitted k o icn w = some
        ([[0x7A, 0xC1], [0x20, b20], [0x21, b21], [0x22, b22], [0x23, b23], [0x24, b24],
          [0x25, b25], [0x26, 0x00], [0x27, b27], [0x28, b28], [0x29, b29]] ++ tail) ∧
      tail =
        [[toU8 k.MIPI_DCS_SET_TEAR_OFF, 0x80], [toU8 k.MIPI_DCS_SET_ADDRESS_MODE, 0x28],
         [0xB5, 0xA0], [0x5C, 0xFF], [toU8 k.MIPI_DCS_SET_COLUMN_ADDRESS, 0x01],
         [toU8 k.MIPI_DCS_GET_POWER_SAVE, 0x92], [0x6B, 0x71], [0x69, 0x2B],
         [toU8 k.MIPI_DCS_ENTER_SLEEP_MODE, 0x40], [toU8 k.MIPI_DCS_EXIT_SLEEP_MODE, 0x98],
         [0xB6, 0x20], [0x51, 0x20], [0x09, 0x10]] ∧
      tail.length = 13 ∧
      (∀ b ∈ [b20, b21, b22, b23, b24, b25, b27, b28, b29], 0 ≤ b ∧ b ≤ 255) ∧
      (∀ p ∈ tail, p.length = 2 ∧ ∀ b ∈ p, 0 ≤ b ∧ b ≤ 255) ∧
      ∀ (o2 : Oracle) (icn2 : s070wv20) (w2 : World) (m2 : drm_display_mode),
        icn2.mode = some m2 →
        (emitted k o2 icn2 w2).map addresses = (emitted k o icn w).map addresses := by
  refine ⟨toU8 (Int.land m.hdisplay 0xff), toU8 (Int.land m.vdisplay 0xff),
    toU8 (Int.lor (Int.land (Int.shiftRight m.hdisplay 8) 0xf)
      (Int.land (Int.shiftRight m.vdisplay 8) 0xf <<< (4 : Int))),
    toU8 (wrapInt (m.hsync_start - m.hdisplay)), toU8 (wrapInt (m.hsync_end - m.hsync_start)),
    toU8 (wrapInt (m.htotal - m.hsync_end)), toU8 (wrapInt (m.vsync_start - m.vdisplay)),
    toU8 (wrapInt (m.vsync_end - m.vsync_start)), toU8 (wrapInt (m.vtotal - m.vsync_end)),
    _, ?_, rfl, rfl, ?_, ?_, ?_⟩
  · rw [emitted_eq k o icn w m h]
    simp only [toU8_lit, List.cons_append, List.nil_append]
  · intro b hb
    simp only [List.mem_cons, List.mem_singleton, List.not_mem_nil, or_false] at hb
    rcases hb with rfl | rfl | rfl | rfl | rfl | rfl | rfl | rfl | rfl <;> exact toU8_range _
  · intro p hp
    simp only [List.mem_cons, List.mem_singleton, List.not_mem_nil, or_false] at hp
    rcases hp with rfl | rfl | rfl | rfl | rfl | rfl | rfl | rfl | rfl | rfl | rfl | rfl | rfl <;>
      refine ⟨rfl, ?_⟩ <;> intro b hb <;>
      simp only [List.mem_cons, List.mem_singleton, List.not_mem_nil, or_false] at hb <;>
      rcases hb with rfl | rfl <;> first | exact toU8_range _ | decide
  · intro o2 icn2 w2 m2 h2
    rw [emitted_eq k o icn w m h, emitted_eq k o2 icn2 w2 m2 h2]
    rfl

/-- C9, amended, at the default mode with the mainline opcode values: the
vendor tail is the thirteen writes to 0x34, 0x36, 0xB5, 0x5C, 0x2A, 0x56,
0x6B, 0x69, 0x10, 0x11, 0xB6, 0x51, 0x09. -/
theorem C9_default_mode_witness :
    ∃ (b20 b21 b22 b23 b24 b25 b27 b28 b29 : Int) (tail : List (List Int)),
      emitted linux okOracle (ctxWith (some s070wv20_default_mode)) world0 = some
        ([[0x7A, 0xC1], [0x20, b20], [0x21, b21], [0x22, b22], [0x23, b23], [0x24, b24],
          [0x25, b25], [0x26, 0x00], [0x27, b27], [0x28, b28], [0x29, b29]] ++ tail) ∧
      tail =
        [[0x34, 0x80], [0x36, 0x28], [0xB5, 0xA0], [0x5C, 0xFF], [0x2A, 0x01], [0x56, 0x92],
         [0x6B, 0x71], [0x69, 0x2B], [0x10, 0x40], [0x11, 0x98], [0xB6, 0x20], [0x51, 0x20],
         [0x09, 0x10]] ∧
      tail.length = 13 ∧
      (∀ b ∈ [b20, b21, b22, b23, b24, b25, b27, b28, b29], 0 ≤ b ∧ b ≤ 255) ∧
      (∀ p ∈ tail, p.length = 2 ∧ ∀ b ∈ p, 0 ≤ b ∧ b ≤ 255) ∧
      ∀ (o2 : Oracle) (icn2 : s070wv20) (w2 : World) (m2 : drm_display_mode),
        icn2.mode = some m2 →
        (emitted linux o2 icn2 w2).map addresses =
          (emitted linux okOracle (ctxWith (some s070wv20_default_mode)) world0).map addresses :=
  C9_fixed_shape_thirteen_tail linux okOracle (ctxWith (some s070wv20_default_mode)) world0
    s070wv20_default_mode rfl

/-! ## Lifecycle controller -/

/-- The result of `s070wv20_prepare` when a mode is attached: it returns 0,
the trace grows by the rail-enable attempt, the handshake and the register
sequence of `icn6211_bridge_init`, both lines end high, and the rail holds one
more enable when `regulator_enable` returned 0. -/
theorem s070wv20_prepare_eq (k : Kernel) (o : Oracle) (ctx : s070wv20) (w : World)
    (m : drm_display_mode) (h : ctx.mode = some m) :
    ∃ w1 l, s070wv20_prepare k o ctx w = some (0, w1) ∧
      (∀ o0 w0, emitted k o0 ctx w0 = some l) ∧
      w1.trace = w.trace ++ [Effect.regulator_enable] ++ handshake ++
        l.map Effect.mipi_dsi_generic_write ∧
      w1.reset_line = true ∧ w1.enable_line = true ∧
      w1.backlight_on = w.backlight_on ∧ w1.probed_modes = w.probed_modes ∧
      w1.power_enables =
        w.power_enables + (if o w.trace Effect.regulator_enable = 0 then 1 else 0) := by
  simp only [s070wv20_prepare, regulator_enable, call, klog, gpiod_set_value, msleep,
    icn6211_bridge_init_eq k o ctx _ m h, handshake]
  refine ⟨_, _, rfl, fun o0 w0 => emitted_eq k o0 ctx w0 m h, ?_⟩
  by_cases hr : o w.trace Effect.regulator_enable = 0
  · simp [hr]
  · simp [hr]

/-- The result of `s070wv20_enable`, whatever the context and the world. -/
theorem s070wv20_enable_eq (o : Oracle) (ctx : s070wv20) (w : World) :
    s070wv20_enable o ctx w = (0, { w with
      backlight_on := if ctx.backlight = 0 then w.backlight_on else true
      trace := w.trace ++ [Effect.msleep 120, Effect.mipi_dsi_dcs_set_display_on,
        Effect.backlight_enable ctx.backlight]
      log := w.log ++ [LogEvent.printk "s070wv20_enable\n" [],
        LogEvent.printk "s070wv20_enable: done!\n" []] }) := by
  by_cases hb : ctx.backlight = 0 <;>
    simp [s070wv20_enable, klog, msleep, mipi_dsi_dcs_set_display_on, backlight_enable, call, hb]

/-- The world after `s070wv20_disable`. -/
theorem s070wv20_disable_eq (o : Oracle) (ctx : s070wv20) (w : World) :
    s070wv20_disable o ctx w =
      (o (w.trace ++ [Effect.backlight_disable ctx.backlight])
          Effect.mipi_dsi_dcs_set_display_on, { w with
        backlight_on := if ctx.backlight = 0 then w.backlight_on else false
        trace := w.trace ++
          [Effect.backlight_disable ctx.backlight, Effect.mipi_dsi_dcs_set_display_on]
        log := w.log ++ [LogEvent.printk "s070wv20_disable\n" []] }) := by
  by_cases hb : ctx.backlight = 0 <;>
    simp [s070wv20_disable, klog, mipi_dsi_dcs_set_display_on, backlight_disable, call, hb]

/-- The hardware state after `s070wv20_unprepare`. -/
theorem s070wv20_unprepare_eq (o : Oracle) (ctx : s070wv20) (w : World) :
    (s070wv20_unprepare o ctx w).1 = 0 ∧
    (s070wv20_unprepare o ctx w).2.trace = w.trace ++
      [Effect.mipi_dsi_dcs_set_display_off, Effect.mipi_dsi_dcs_enter_sleep_mode,
       Effect.msleep 100, Effect.gpiod_set_value Line.reset 0,
       Effect.gpiod_set_value Line.reset 1, Effect.gpiod_set_value Line.enable 0,
       Effect.gpiod_set_value Line.reset 0] ∧
    (s070wv20_unprepare o ctx w).2.reset_line = false ∧
    (s070wv20_unprepare o ctx w).2.enable_line = false ∧
    (s070wv20_unprepare o ctx w).2.backlight_on = w.backlight_on ∧
    (s070wv20_unprepare o ctx w).2.power_enables = w.power_enables ∧
    (s070wv20_unprepare o ctx w).2.probed_modes = w.probed_modes := by
  simp only [s070wv20_unprepare, klog, mipi_dsi_dcs_set_display_off,
    mipi_dsi_dcs_enter_sleep_mode, msleep, gpiod_set_value, call]
  split_ifs <;> simp

/-- The hardware state after the four lifecycle operations. -/
theorem lifecycle_eq (k : Kernel) (o : Oracle) (ctx : s070wv20) (w : World)
    (m : drm_display_mode) (h : ctx.mode = some m) :
    ∃ wf, lifecycle k o ctx w = some wf ∧
      wf.reset_line = false ∧ wf.enable_line = false ∧
      wf.backlight_on = (if ctx.backlight = 0 then w.backlight_on else false) ∧
      wf.probed_modes = w.probed_modes ∧
      wf.power_enables =
        w.power_enables + (if o w.trace Effect.regulator_enable = 0 then 1 else 0) := by
  obtain ⟨w1, l, hp, -, -, -, -, hbl, hm, hpow⟩ := s070wv20_prepare_eq k o ctx w m h
  simp only [lifecycle, hp, s070wv20_enable_eq, s070wv20_disable_eq]
  refine ⟨_, rfl, ?_⟩
  generalize hW : ({ w1 with
      backlight_on := if ctx.backlight = 0 then
          (if ctx.backlight = 0 then w1.backlight_on else true) else false
      trace := w1.trace ++ [Effect.msleep 120, Effect.mipi_dsi_dcs_set_display_on,
        Effect.backlight_enable ctx.backlight] ++
        [Effect.backlight_disable ctx.backlight, Effect.mipi_dsi_dcs_set_display_on]
      log := w1.log ++ [LogEvent.printk "s070wv20_enable\n" [],
        LogEvent.printk "s070wv20_enable: done!\n" []] ++
        [LogEvent.printk "s070wv20_disable\n" []] } : World) = W
  obtain ⟨-, -, hr, he, hb, hpw, hpm⟩ := s070wv20_unprepare_eq o ctx W
  refine ⟨hr, he, ?_, ?_, ?_⟩
  · rw [hb, ← hW]
    by_cases hz : ctx.backlight = 0 <;> simp [hz, hbl]
  · rw [hpm, ← hW]
    exact hm
  · rw [hpw, ← hW]
    exact hpow

/-- C3: with a mode attached, for every oracle (every outcome of the rail
enable and of each transport write) `s070wv20_prepare` returns 0 and, after
the rail-enable attempt, performs reset := 1, sleep 50, enable := 1, sleep 50,
reset := 0, sleep 50, reset := 1, sleep 20 and then the full register
sequence of `icn6211_bridge_init` for the attached mode. -/
theorem C3_prepare_fixed_sequence (k : Kernel) (o : Oracle) (ctx : s070wv20) (w : World)
    (m : drm_display_mode) (h : ctx.mode = some m) :
    ∃ w1 l, s070wv20_prepare k o ctx w = some (0, w1) ∧
      (∀ o0 w0, emitted k o0 ctx w0 = some l) ∧
      w1.trace = w.trace ++ [Effect.regulator_enable] ++
        [Effect.gpiod_set_value Line.reset 1, Effect.msleep 50,
         Effect.gpiod_set_value Line.enable 1, Effect.msleep 50,
         Effect.gpiod_set_value Line.reset 0, Effect.msleep 50,
         Effect.gpiod_set_value Line.reset 1, Effect.msleep 20] ++
        l.map Effect.mipi_dsi_generic_write := by
  obtain ⟨w1, l, hp, hl, ht, -⟩ := s070wv20_prepare_eq k o ctx w m h
  exact ⟨w1, l, hp, hl, ht⟩

/-- C3 with every collaborator call failing: the rail enable and all writes
return `-EIO`, and prepare still returns 0 after the same sequence. -/
theorem C3_all_failing_witness :
    ∃ w1 l, s070wv20_prepare linux failOracle (ctxWith (some s070wv20_default_mode)) world0 =
        some (0, w1) ∧
      (∀ o0 w0, emitted linux o0 (ctxWith (some s070wv20_default_mode)) w0 = some l) ∧
      w1.trace = world0.trace ++ [Effect.regulator_enable] ++
        [Effect.gpiod_set_value Line.reset 1, Effect.msleep 50,
         Effect.gpiod_set_value Line.enable 1, Effect.msleep 50,
         Effect.gpiod_set_value Line.reset 0, Effect.msleep 50,
         Effect.gpiod_set_value Line.reset 1, Effect.msleep 20] ++
        l.map Effect.mipi_dsi_generic_write :=
  C3_prepare_fixed_sequence linux failOracle (ctxWith (some s070wv20_default_mode)) world0
    s070wv20_default_mode rfl

/-- C4 as stated fails: on the bound, never prepared panel `s070wv20_enable`
returns 0 and performs the display-on command on the transport, followed by
the call of `backlight_enable` on `ctx->backlight`; and a second
`s070wv20_prepare` directly after the first returns 0 and runs the rail
enable, the handshake and the register writes again. -/
theorem C4_nothing_rejected :
    (s070wv20_enable okOracle boundPanel.1 boundPanel.2).1 = 0 ∧
    (s070wv20_enable okOracle boundPanel.1 boundPanel.2).2.trace =
      boundPanel.2.trace ++ [Effect.msleep 120, Effect.mipi_dsi_dcs_set_display_on,
        Effect.backlight_enable 0] ∧
    Effect.mipi_dsi_dcs_set_display_on ∈
      (s070wv20_enable okOracle boundPanel.1 boundPanel.2).2.trace ∧
    ∃ (w1 w2 : World) (l : List (List Int)),
      s070wv20_prepare linux okOracle boundPanel.1 boundPanel.2 = some (0, w1) ∧
      s070wv20_prepare linux okOracle boundPanel.1 w1 = some (0, w2) ∧
      w2.trace = w1.trace ++ [Effect.regulator_enable] ++ handshake ++
        l.map Effect.mipi_dsi_generic_write ∧
      l.length = 24 ∧ w2.power_enables = 2 := by
  have hm : boundPanel.1.mode = some { s070wv20_default_mode with
      name := "320x240", type := 72 } := rfl
  refine ⟨rfl, ?_, ?_, ?_⟩
  · rw [s070wv20_enable_eq]
    rfl
  · rw [s070wv20_enable_eq]
    simp
  · obtain ⟨w1, l1, hp1, -, -, -, -, -, -, hpow1⟩ :=
      s070wv20_prepare_eq linux okOracle boundPanel.1 boundPanel.2 _ hm
    obtain ⟨w2, l2, hp2, hl2, ht2, -, -, -, -, hpow2⟩ :=
      s070wv20_prepare_eq linux okOracle boundPanel.1 w1 _ hm
    refine ⟨w1, w2, l2, hp1, hp2, ht2, ?_, ?_⟩
    · have h3 := hl2 okOracle world0
      rw [emitted_eq linux okOracle boundPanel.1 world0 _ hm] at h3
      rw [← Option.some.inj h3]
      rfl
    · rw [hpow2, hpow1]
      rfl

/-- C4, amended: the driver keeps no lifecycle state and rejects nothing.
`s070wv20_enable` returns 0 in every world, prepared or not, after sleeping
120 ms, sending display-on and calling `backlight_enable` on `ctx->backlight`;
and with a mode attached
`s070wv20_prepare` returns 0 every time, a second call directly after the
first running the same power/reset and register sequence again. -/
theorem C4_no_lifecycle_check (k : Kernel) (o : Oracle) (ctx : s070wv20) (w : World)
    (m : drm_display_mode) (h : ctx.mode = some m) :
    (s070wv20_enable o ctx w).1 = 0 ∧
    (s070wv20_enable o ctx w).2.trace =
      w.trace ++ [Effect.msleep 120, Effect.mipi_dsi_dcs_set_display_on,
        Effect.backlight_enable ctx.backlight] ∧
    ∃ w1 w2, s070wv20_prepare k o ctx w = some (0, w1) ∧
      s070wv20_prepare k o ctx w1 = some (0, w2) ∧
      w2.trace.drop w1.trace.length = w1.trace.drop w.trace.length ∧
      (w1.trace.drop w.trace.length).take 9 = Effect.regulator_enable :: handshake := by
  refine ⟨by rw [s070wv20_enable_eq], by rw [s070wv20_enable_eq], ?_⟩
  obtain ⟨w1, l1, hp1, hl1, ht1, -⟩ := s070wv20_prepare_eq k o ctx w m h
  obtain ⟨w2, l2, hp2, hl2, ht2, -⟩ := s070wv20_prepare_eq k o ctx w1 m h
  have hl : l2 = l1 := Option.some.inj ((hl2 o w).symm.trans (hl1 o w))
  refine ⟨w1, w2, hp1, hp2, ?_, ?_⟩
  · rw [ht2, hl]
    simp only [List.append_assoc, List.drop_left]
    rw [ht1]
    simp only [List.append_assoc, List.drop_left]
  · rw [ht1]
    simp only [List.append_assoc, List.drop_left]
    rfl

/-- C4, amended, on the bound, never prepared panel. -/
theorem C4_bound_panel_witness :
    (s070wv20_enable okOracle boundPanel.1 boundPanel.2).1 = 0 ∧
    (s070wv20_enable okOracle boundPanel.1 boundPanel.2).2.trace =
      boundPanel.2.trace ++ [Effect.msleep 120, Effect.mipi_dsi_dcs_set_display_on,
        Effect.backlight_enable 0] ∧
    ∃ w1 w2, s070wv20_prepare linux okOracle boundPanel.1 boundPanel.2 = some (0, w1) ∧
      s070wv20_prepare linux okOracle boundPanel.1 w1 = some (0, w2) ∧
      w2.trace.drop w1.trace.length = w1.trace.drop boundPanel.2.trace.length ∧
      (w1.trace.drop boundPanel.2.trace.length).take 9 = Effect.regulator_enable :: handshake :=
  C4_no_lifecycle_check linux okOracle boundPanel.1 boundPanel.2
    { s070wv20_default_mode with name := "320x240", type := 72 } rfl

/-- C5 as stated fails: the bound panel starts with both lines low, the
backlight off and no enable held on the power rail; after prepare, enable,
disable, unprepare under `okOracle` the rail still holds the enable taken by
prepare, so the state is not back at its initial value. -/
theorem C5_power_rail_not_released :
    boundPanel.2.reset_line = false ∧ boundPanel.2.enable_line = false ∧
    boundPanel.2.backlight_on = false ∧ boundPanel.2.power_enables = 0 ∧
    ∃ wf, lifecycle linux okOracle boundPanel.1 boundPanel.2 = some wf ∧
      wf.power_enables = 1 ∧ wf.power_enables ≠ boundPanel.2.power_enables := by
  refine ⟨rfl, rfl, rfl, rfl, ?_⟩
  obtain ⟨wf, hf, -, -, -, -, hpow⟩ := lifecycle_eq linux okOracle boundPanel.1 boundPanel.2
    { s070wv20_default_mode with name := "320x240", type := 72 } rfl
  have h1 : wf.power_enables = 1 := hpow.trans rfl
  exact ⟨wf, hf, h1, by rw [h1]; decide⟩

/-- C5, amended: with a mode attached, for every oracle and every starting
world, prepare, enable, disable, unprepare in that order all return and leave
the reset line low and the enable line low. A backlight that was off before
is off afterwards: with `ctx->backlight` NULL the cycle does not switch it,
otherwise it ends off. The list of probed modes is untouched. The power rail
is not released: the driver never disables it, so it holds one more enable
than before exactly when `regulator_enable` returned 0. -/
theorem C5_lifecycle_lines_low_rail_kept (k : Kernel) (o : Oracle) (ctx : s070wv20) (w : World)
    (m : drm_display_mode) (h : ctx.mode = some m) :
    ∃ wf, lifecycle k o ctx w = some wf ∧
      wf.reset_line = false ∧ wf.enable_line = false ∧
      wf.backlight_on = (if ctx.backlight = 0 then w.backlight_on else false) ∧
      (w.backlight_on = false → wf.backlight_on = false) ∧
      wf.probed_modes = w.probed_modes ∧
      wf.power_enables =
        w.power_enables + (if o w.trace Effect.regulator_enable = 0 then 1 else 0) := by
  obtain ⟨wf, hf, hr, he, hb, hm, hp⟩ := lifecycle_eq k o ctx w m h
  refine ⟨wf, hf, hr, he, hb, ?_, hm, hp⟩
  intro h0
  rw [hb, h0]
  exact ite_self false

/-- C5, amended, with every collaborator call failing: the lines end low, the
backlight, off before, is off, and the rail, whose enable failed, holds no
enable. -/
theorem C5_all_failing_witness :
    ∃ wf, lifecycle linux failOracle (ctxWith (some s070wv20_default_mode)) world0 = some wf ∧
      wf.reset_line = false ∧ wf.enable_line = false ∧ wf.backlight_on = false ∧
      (world0.backlight_on = false → wf.backlight_on = false) ∧
      wf.probed_modes = [] ∧ wf.power_enables = 0 :=
  C5_lifecycle_lines_low_rail_kept linux failOracle (ctxWith (some s070wv20_default_mode)) world0
    s070wv20_default_mode rfl

/-- C6: `s070wv20_get_modes`. When `drm_mode_duplicate` returns NULL it returns
`-ENOMEM`, adds no mode and leaves the context, so the stored mode, unchanged.
Otherwise it returns 1, appends exactly one mode to the connector and stores
that mode in the context; the mode is 320x240 at 9000 kHz with horizontal
front porch 70, sync 20, back porch 20 and vertical front porch 70, sync 20,
back porch 20, and its type is driver + preferred. -/
theorem C6_get_modes_one_fixed_mode (k : Kernel) (o : Oracle) (ctx : s070wv20) (w : World) :
    if o w.trace Effect.drm_mode_duplicate = 0 then
      (s070wv20_get_modes k o ctx w).1 = -k.ENOMEM ∧
      (s070wv20_get_modes k o ctx w).2.1 = ctx ∧
      (s070wv20_get_modes k o ctx w).2.2.probed_modes = w.probed_modes ∧
      (s070wv20_get_modes k o ctx w).2.2.trace = w.trace ++ [Effect.drm_mode_duplicate]
    else
      ∃ mode : drm_display_mode,
        (s070wv20_get_modes k o ctx w).1 = 1 ∧
        (s070wv20_get_modes k o ctx w).2.1 = { ctx with mode := some mode } ∧
        (s070wv20_get_modes k o ctx w).2.2.probed_modes = w.probed_modes ++ [mode] ∧
        (s070wv20_get_modes k o ctx w).2.2.trace =
          w.trace ++ [Effect.drm_mode_duplicate, Effect.drm_mode_probed_add mode] ∧
        mode.hdisplay = 320 ∧ mode.vdisplay = 240 ∧ mode.clock = 9000 ∧
        mode.hsync_start - mode.hdisplay = 70 ∧ mode.hsync_end - mode.hsync_start = 20 ∧
        mode.htotal - mode.hsync_end = 20 ∧
        mode.vsync_start - mode.vdisplay = 70 ∧ mode.vsync_end - mode.vsync_start = 20 ∧
        mode.vtotal - mode.vsync_end = 20 ∧
        mode.type = Int.lor k.DRM_MODE_TYPE_DRIVER k.DRM_MODE_TYPE_PREFERRED ∧
        ∀ o2 w2, emitted k o2 (s070wv20_get_modes k o ctx w).2.1 w2 =
          emitted k o2 { ctx with mode := some s070wv20_default_mode } w2 := by
  by_cases hd : o w.trace Effect.drm_mode_duplicate = 0
  · simp [hd, s070wv20_get_modes, drm_mode_duplicate, klog, call]
  · rw [if_neg hd]
    have he : s070wv20_get_modes k o ctx w =
        (1, { ctx with mode := some (get_modes_mode k) },
          { w with
            probed_modes := w.probed_modes ++ [get_modes_mode k]
            trace := w.trace ++
              [Effect.drm_mode_duplicate, Effect.drm_mode_probed_add (get_modes_mode k)]
            log := w.log ++ [LogEvent.printk "s070wv20_get_modes\n" [],
              LogEvent.printk "s070wv20_get_modes: done!\n" []] }) := by
      simp [hd, s070wv20_get_modes, drm_mode_duplicate, drm_mode_probed_add, klog, call,
        get_modes_mode]
    rw [he]
    refine ⟨get_modes_mode k, rfl, rfl, rfl, rfl, rfl, rfl, rfl, rfl, rfl, rfl, rfl, rfl, rfl,
      rfl, ?_⟩
    intro o2 w2
    rw [emitted_eq k o2 _ w2 (get_modes_mode k) rfl,
      emitted_eq k o2 _ w2 s070wv20_default_mode rfl]
    rfl

/-- C7 fails on the code: on the bound panel `ctx->backlight` is NULL, and
`s070wv20_disable` called while the backlight is on leaves it on. It calls
`backlight_disable` on the NULL handle, which switches nothing, then sends the
display-on command and returns the value of that command; the GPIO lines and
the power rail are untouched. -/
theorem C7_disable_leaves_backlight_on :
    boundPanel.1.backlight = 0 ∧ litWorld.backlight_on = true ∧
    (s070wv20_disable okOracle boundPanel.1 litWorld).2.backlight_on = true ∧
    (s070wv20_disable okOracle boundPanel.1 litWorld).2.trace =
      litWorld.trace ++ [Effect.backlight_disable 0, Effect.mipi_dsi_dcs_set_display_on] ∧
    (s070wv20_disable okOracle boundPanel.1 litWorld).1 =
      okOracle (litWorld.trace ++ [Effect.backlight_disable 0])
        Effect.mipi_dsi_dcs_set_display_on ∧
    (s070wv20_disable okOracle boundPanel.1 litWorld).2.reset_line = litWorld.reset_line ∧
    (s070wv20_disable okOracle boundPanel.1 litWorld).2.enable_line = litWorld.enable_line ∧
    (s070wv20_disable okOracle boundPanel.1 litWorld).2.power_enables =
      litWorld.power_enables := by
  rw [s070wv20_disable_eq]
  exact ⟨rfl, rfl, rfl, rfl, rfl, rfl, rfl, rfl⟩

/-- C8: for every oracle (every outcome of the two transport commands)
`s070wv20_unprepare` returns 0 and performs display-off, enter-sleep-mode,
sleep 100 ms, reset := 0, reset := 1, enable := 0, reset := 0, in this order;
afterwards the reset line and the enable line are both low. -/
theorem C8_unprepare_fixed_sequence (o : Oracle) (ctx : s070wv20) (w : World) :
    (s070wv20_unprepare o ctx w).1 = 0 ∧
    (s070wv20_unprepare o ctx w).2.trace = w.trace ++
      [Effect.mipi_dsi_dcs_set_display_off, Effect.mipi_dsi_dcs_enter_sleep_mode,
       Effect.msleep 100, Effect.gpiod_set_value Line.reset 0,
       Effect.gpiod_set_value Line.reset 1, Effect.gpiod_set_value Line.enable 0,
       Effect.gpiod_set_value Line.reset 0] ∧
    (s070wv20_unprepare o ctx w).2.reset_line = false ∧
    (s070wv20_unprepare o ctx w).2.enable_line = false := by
  obtain ⟨h1, h2, h3, h4, -⟩ := s070wv20_unprepare_eq o ctx w
  exact ⟨h1, h2, h3, h4⟩

end Icn6211
